import Mathlib

/-!
Verification of the stroke-risk scoring core:

* `calculate_risk_score` — shallow embedding of `calculate_risk_score`
  (src/app.py lines 178–275).  Each contiguous `if/elif` block of the
  source is transcribed as one block function; the assembly concatenates
  factor/explanation lists in the source's append order and sums the
  score increments.  Explanation sentences are represented by the tagged
  constructors of `Expl` carrying the interpolated numeric values.
* `st_calculate_risk_score` — embedding of the Streamlit variant
  (src/streamlit_app.py lines 149–206), which has no explanation list,
  no `age ≥ 40`, `glucose ≥ 100`, `bmi ≥ 25` sub-branches and no
  combination branches.
* `predict_with_model` / `predict_stroke_risk` — embeddings of the two
  arbiters (src/app.py lines 277–321, src/streamlit_app.py lines
  208–260).  A loaded model is an opaque collaborator
  `Profile → Option _`; `none` stands for an invocation that raises or
  returns a malformed shape.  In the Flask arbiter both calls sit in a
  single `try`, so any failure falls back wholesale; in the Streamlit
  arbiter each call has its own `try/except`.
* Embeddings of the feature-normalizer steps of `complete_preprocessing`
  (src/model_wrappers.py lines 11–88): missing-value imputation
  (`fillnaStep`, with pandas `median`/`fillna` semantics for NaN),
  categorical encoding via `pd.Categorical(...).codes`
  (`categoricalCodes`, `encodeStep`, `dropStep`) and the
  expected-features reconciliation (`addMissingStep`, `selectStep`).
  Numeric cells are rationals; a missing (NaN) cell is `none`.
-/

/-- Immutable patient input record (the dict built in `app.py`'s
`/predict` route; numeric fields as rationals, booleans coerced at the
boundary). -/
structure Profile where
  age : ℚ
  gender : String
  hypertension : Bool
  heart_disease : Bool
  ever_married : String
  work_type : String
  residence_type : String
  avg_glucose_level : ℚ
  bmi : ℚ
  smoking_status : String
deriving DecidableEq

/-- Explanation sentences of `calculate_risk_score`, one constructor per
`explanation.append(...)` site, carrying the f-string interpolated
values. -/
inductive Expl where
  | ageSignificant (age : ℚ)
  | ageElevated (age : ℚ)
  | ageScreening (age : ℚ)
  | hypertension
  | heartDisease
  | veryHighGlucose (glucose : ℚ)
  | elevatedGlucose (glucose : ℚ)
  | severeObesity (bmi : ℚ)
  | obesity (bmi : ℚ)
  | currentSmoker
  | formerSmoker
  | comboAgeHyp
  | comboHypHeart
deriving DecidableEq, Inhabited

/-- Result tuple of `calculate_risk_score` in app.py:
`(risk_percentage, risk_level, risk_factors, explanation)`. -/
structure RiskResult where
  percentage : ℤ
  level : String
  factors : List String
  explanation : List Expl
deriving DecidableEq

/-- Age block of `calculate_risk_score` (app.py lines 189–203):
score increment, appended factors, appended explanations. -/
def ageBlock (age : ℚ) : ℤ × List String × List Expl :=
  if age ≥ 70 then (35, ["Age 70+"], [Expl.ageSignificant age])
  else if age ≥ 60 then (25, ["Age 60-69"], [Expl.ageElevated age])
  else if age ≥ 50 then (15, ["Age 50-59"], [Expl.ageScreening age])
  else if age ≥ 40 then (5, [], [])
  else (0, [], [])

/-- Hypertension block (app.py lines 206–209). -/
def hypertensionBlock (hyp : Bool) : ℤ × List String × List Expl :=
  if hyp = true then (20, ["Hypertension"], [Expl.hypertension]) else (0, [], [])

/-- Heart-disease block (app.py lines 212–215). -/
def heartDiseaseBlock (hd : Bool) : ℤ × List String × List Expl :=
  if hd = true then (20, ["Heart Disease"], [Expl.heartDisease]) else (0, [], [])

/-- Glucose block (app.py lines 218–228). -/
def glucoseBlock (glucose : ℚ) : ℤ × List String × List Expl :=
  if glucose ≥ 200 then (15, ["Very High Glucose"], [Expl.veryHighGlucose glucose])
  else if glucose ≥ 140 then (10, ["Elevated Glucose"], [Expl.elevatedGlucose glucose])
  else if glucose ≥ 100 then (5, [], [])
  else (0, [], [])

/-- BMI block (app.py lines 231–241). -/
def bmiBlock (bmi : ℚ) : ℤ × List String × List Expl :=
  if bmi ≥ 35 then (10, ["Severe Obesity"], [Expl.severeObesity bmi])
  else if bmi ≥ 30 then (7, ["Obesity"], [Expl.obesity bmi])
  else if bmi ≥ 25 then (3, [], [])
  else (0, [], [])

/-- Smoking block (app.py lines 244–252). -/
def smokingBlock (smoking : String) : ℤ × List String × List Expl :=
  if smoking = "smokes" then (15, ["Current Smoker"], [Expl.currentSmoker])
  else if smoking = "formerly smoked" then (5, ["Former Smoker"], [Expl.formerSmoker])
  else (0, [], [])

/-- Combination block (app.py lines 255–262): both branches add to the
score; the first appends its explanation only when the literal
"Age + Hypertension Combination" is not among the factors accumulated so
far; neither branch appends a factor. -/
def comboBlock (age : ℚ) (hyp heart : Bool) (risk_factors : List String) :
    ℤ × List Expl :=
  let c1 : ℤ × List Expl :=
    if age ≥ 60 ∧ hyp = true then
      (10, if "Age + Hypertension Combination" ∈ risk_factors then []
           else [Expl.comboAgeHyp])
    else (0, [])
  let c2 : ℤ × List Expl :=
    if hyp = true ∧ heart = true then (10, [Expl.comboHypHeart]) else (0, [])
  (c1.1 + c2.1, c1.2 ++ c2.2)

/-- Tier thresholds shared by scorer and arbiters (app.py lines 268–273,
307–312; streamlit_app.py lines 199–204, 244–249). -/
def riskLevel (pct : ℤ) : String :=
  if pct ≥ 60 then "HIGH" else if pct ≥ 30 then "MODERATE" else "LOW"

/-- Embedding of `calculate_risk_score` (src/app.py lines 178–275). -/
def calculate_risk_score (p : Profile) : RiskResult :=
  let a := ageBlock p.age
  let h := hypertensionBlock p.hypertension
  let d := heartDiseaseBlock p.heart_disease
  let g := glucoseBlock p.avg_glucose_level
  let b := bmiBlock p.bmi
  let s := smokingBlock p.smoking_status
  let risk_factors := a.2.1 ++ h.2.1 ++ d.2.1 ++ g.2.1 ++ b.2.1 ++ s.2.1
  let explanation := a.2.2 ++ h.2.2 ++ d.2.2 ++ g.2.2 ++ b.2.2 ++ s.2.2
  let c := comboBlock p.age p.hypertension p.heart_disease risk_factors
  let base_score := a.1 + h.1 + d.1 + g.1 + b.1 + s.1 + c.1
  let risk_percentage := min 95 (max 5 base_score)
  { percentage := risk_percentage
    level := riskLevel risk_percentage
    factors := risk_factors
    explanation := explanation ++ c.2 }

/-- Result triple of the Streamlit `calculate_risk_score`
(`streamlit_app.py` lines 149–206): no explanation list. -/
structure StScore where
  percentage : ℤ
  level : String
  factors : List String
deriving DecidableEq

/-- Embedding of the Streamlit rule-based scorer
(src/streamlit_app.py lines 149–206).  It lacks the `age ≥ 40`,
`glucose ≥ 100`, `bmi ≥ 25` score-only branches and the combination
branches of the Flask variant. -/
def st_calculate_risk_score (p : Profile) : StScore :=
  let aScore : ℤ × List String :=
    if p.age ≥ 70 then (35, ["Age 70+"])
    else if p.age ≥ 60 then (25, ["Age 60-69"])
    else if p.age ≥ 50 then (15, ["Age 50-59"])
    else (0, [])
  let hScore : ℤ × List String :=
    if p.hypertension = true then (20, ["Hypertension"]) else (0, [])
  let dScore : ℤ × List String :=
    if p.heart_disease = true then (20, ["Heart Disease"]) else (0, [])
  let gScore : ℤ × List String :=
    if p.avg_glucose_level ≥ 200 then (15, ["Very High Glucose"])
    else if p.avg_glucose_level ≥ 140 then (10, ["Elevated Glucose"])
    else (0, [])
  let bScore : ℤ × List String :=
    if p.bmi ≥ 35 then (10, ["Severe Obesity"])
    else if p.bmi ≥ 30 then (7, ["Obesity"])
    else (0, [])
  let sScore : ℤ × List String :=
    if p.smoking_status = "smokes" then (15, ["Current Smoker"])
    else if p.smoking_status = "formerly smoked" then (5, ["Former Smoker"])
    else (0, [])
  let base_score := aScore.1 + hScore.1 + dScore.1 + gScore.1 + bScore.1 + sScore.1
  let risk_percentage := min 95 (max 5 base_score)
  { percentage := risk_percentage
    level := riskLevel risk_percentage
    factors := aScore.2 ++ hScore.2 ++ dScore.2 ++ gScore.2 ++ bScore.2 ++ sScore.2 }

/-- Python `int(·)` on a real value: truncation toward zero. -/
def ratTrunc (q : ℚ) : ℤ := if 0 ≤ q then ⌊q⌋ else -⌊-q⌋

/-- Rounding to the nearest integer (ties upward), used only to state
what the spec's `round` would compute. -/
def roundNearest (q : ℚ) : ℤ := ⌊q + 1 / 2⌋

/-- Embedding of the Flask arbiter `predict_with_model`
(src/app.py lines 277–321).  A loaded model is `Profile → Option _`
(`none` = the `.predict` call raises or yields a malformed shape).
Both calls live in one `try`: the binary call runs first and any failure
of either call falls back to the full rule-based result. -/
def predict_with_model (binary_model : Option (Profile → Option ℤ))
    (probability_model : Option (Profile → Option ℚ)) (p : Profile) :
    RiskResult :=
  let rule := calculate_risk_score p
  match binary_model, probability_model with
  | some bf, some pf =>
    match bf p with
    | none => rule
    | some binary_prediction =>
      match pf p with
      | none => rule
      | some risk_probability =>
        let pct0 := max 0 (min 100 (ratTrunc (risk_probability * 100)))
        let risk_percentage := if binary_prediction = 1 then max pct0 30 else pct0
        { percentage := risk_percentage
          level := riskLevel risk_percentage
          factors := rule.factors
          explanation := rule.explanation }
  | _, _ => rule

/-- Result tuple of the Streamlit arbiter: `(risk_percentage,
risk_level, risk_factors, binary_prediction)`. -/
structure StResult where
  percentage : ℤ
  level : String
  factors : List String
  binary_flag : Option ℤ
deriving DecidableEq

/-- Embedding of the Streamlit arbiter `predict_stroke_risk`
(src/streamlit_app.py lines 208–260).  Each model call has its own
`try/except`: a failed call leaves its value `None` and the other call
still runs; the probability term falls back to the rule-based
percentage/level when the probability call failed. -/
def predict_stroke_risk (binary_model : Option (Profile → Option ℤ))
    (probability_model : Option (Profile → Option ℚ)) (p : Profile) :
    StResult :=
  let rule := st_calculate_risk_score p
  match binary_model, probability_model with
  | some bf, some pf =>
    let binary_prediction : Option ℤ := bf p
    match pf p with
    | some risk_probability =>
      let pct0 := max 0 (min 100 (ratTrunc (risk_probability * 100)))
      let risk_percentage :=
        if binary_prediction = some 1 then max pct0 30 else pct0
      { percentage := risk_percentage
        level := riskLevel risk_percentage
        factors := rule.factors
        binary_flag := binary_prediction }
    | none =>
      { percentage := rule.percentage
        level := rule.level
        factors := rule.factors
        binary_flag := binary_prediction }
  | _, _ =>
    { percentage := rule.percentage
      level := rule.level
      factors := rule.factors
      binary_flag := none }

/-! Feature-normalizer steps of `complete_preprocessing`
(src/model_wrappers.py lines 11–88). -/

/-- Insert into a sorted list, first position where `le a b` holds. -/
def insertSorted (le : α → α → Bool) (a : α) : List α → List α
  | [] => [a]
  | b :: l => if le a b then a :: b :: l else b :: insertSorted le a l

/-- Insertion sort by a boolean relation (ascending). -/
def sortListBy (le : α → α → Bool) : List α → List α
  | [] => []
  | a :: l => insertSorted le a (sortListBy le l)

/-- Lexicographic strict comparison of character lists by Unicode code
point — the ordering Python and pandas use on strings. -/
def lexLt : List Char → List Char → Bool
  | [], [] => false
  | [], _ :: _ => true
  | _ :: _, [] => false
  | c :: cs, d :: ds =>
    if c.toNat < d.toNat then true
    else if d.toNat < c.toNat then false
    else lexLt cs ds

/-- Python/pandas string `<`. -/
def strLt (a b : String) : Bool := lexLt a.data b.data

/-- Pandas `Series.median()` with `skipna=True`: sort the present
values; odd count takes the middle, even count the mean of the two
middle values, empty yields NaN (`none`). -/
def pandasMedian (col : List (Option ℚ)) : Option ℚ :=
  let vs := sortListBy (fun a b => decide (a ≤ b)) (col.filterMap id)
  if vs.length = 0 then none
  else if vs.length % 2 = 1 then some (vs.getD (vs.length / 2) 0)
  else some ((vs.getD (vs.length / 2 - 1) 0 + vs.getD (vs.length / 2) 0) / 2)

/-- Step 1 of `complete_preprocessing` for one numeric column
(model_wrappers.py lines 19–22):
`df[c].fillna(df[c].median() if len(df) > 0 else fallback)`.
`fillna` with a NaN fill value is a no-op. -/
def fillnaStep (col : List (Option ℚ)) (fallback : ℚ) : List (Option ℚ) :=
  let fillValue := if col.length > 0 then pandasMedian col else some fallback
  match fillValue with
  | none => col
  | some v => col.map (fun x => some (x.getD v))

/-- `pd.Categorical(vals)` infers its categories as the distinct values
in sorted (lexicographic) order. -/
def sortedCategories (vals : List String) : List String :=
  sortListBy strLt vals.dedup

/-- `pd.Categorical(vals).codes`: each value's index among the sorted
distinct categories. -/
def categoricalCodes (vals : List String) : List ℤ :=
  vals.map (fun v => ((sortedCategories vals).indexOf v : ℤ))

/-- A dataframe column: string-valued, rational-valued (NaN = `none`),
or integer-valued (the dtype of categorical codes). -/
inductive Col where
  | strs : List String → Col
  | nums : List (Option ℚ) → Col
  | ints : List ℤ → Col
deriving DecidableEq

/-- A dataframe: named columns in order. -/
abbrev DF := List (String × Col)

/-- `categorical_cols` of model_wrappers.py line 62. -/
def categorical_cols : List String :=
  ["gender", "ever_married", "work_type", "Residence_type", "smoking_status"]

/-- Step 3 (model_wrappers.py lines 63–66): for each categorical column
present, append `<col>_encoded` holding `pd.Categorical(df[col]).codes`. -/
def encodeStep (df : DF) : DF :=
  categorical_cols.foldl (fun d c =>
    match d.lookup c with
    | some (Col.strs vs) => d ++ [(c ++ "_encoded", Col.ints (categoricalCodes vs))]
    | _ => d) df

/-- Step 4 (model_wrappers.py lines 69–71): drop the original
categorical columns. -/
def dropStep (df : DF) : DF :=
  categorical_cols.foldl (fun d c => d.filter (fun kv => kv.1 ≠ c)) df

/-- A constant-0 column broadcast over `n` rows (`df[col] = 0`). -/
def zeroCol (n : ℕ) : Col := Col.nums (List.replicate n (some 0))

/-- One iteration of step 5's first loop (model_wrappers.py lines
76–78): add the expected column as constant 0 when absent. -/
def addCol (n : ℕ) (d : DF) (c : String) : DF :=
  if (d.lookup c).isSome then d else d ++ [(c, zeroCol n)]

/-- Step 5, first half (model_wrappers.py lines 76–78): add every
still-missing expected feature as constant 0 (`n` = row count). -/
def addMissingStep (n : ℕ) (df : DF) (expected_features : List String) : DF :=
  expected_features.foldl (addCol n) df

/-- Step 5, second half (model_wrappers.py line 81): `df =
df[expected_features]` — select exactly the expected columns in order. -/
def selectStep (df : DF) (expected_features : List String) : DF :=
  expected_features.map (fun c => (c, (df.lookup c).getD (zeroCol 0)))

/-- Step 5 of `complete_preprocessing` (model_wrappers.py lines 74–81),
the `expected_features is not None` branch. -/
def featureFilter (n : ℕ) (df : DF) (expected_features : List String) : DF :=
  selectStep (addMissingStep n df expected_features) expected_features

/-- The raw input dataframe built by `prepare_input_dataframe`
(src/app.py lines 323–342), generalized to a batch: one list per
column, in the source's column order. -/
def inputDF (ages : List (Option ℚ)) (genders : List String)
    (hyps hds : List (Option ℚ)) (marrieds works ress : List String)
    (glus bmis : List (Option ℚ)) (smokes : List String) : DF :=
  [("age", Col.nums ages), ("gender", Col.strs genders),
   ("hypertension", Col.nums hyps), ("heart_disease", Col.nums hds),
   ("ever_married", Col.strs marrieds), ("work_type", Col.strs works),
   ("Residence_type", Col.strs ress),
   ("avg_glucose_level", Col.nums glus), ("bmi", Col.nums bmis),
   ("smoking_status", Col.strs smokes)]

/-! Concrete inputs used by counterexamples and witnesses. -/

/-- The profile of the spec's "Concrete case 1". -/
def c1Profile : Profile :=
  ⟨75, "Female", true, false, "Yes", "Private", "Urban", 120, 22, "never"⟩

/-- The profile of the spec's "Concrete case 2". -/
def comboProfile : Profile :=
  ⟨65, "Male", true, true, "Yes", "Private", "Urban", 100, 26, "never smoked"⟩

/-- A profile whose rule-based score is the clamp floor 5 on both
scorers (spec "Concrete case 3"). -/
def lowProfile : Profile :=
  ⟨35, "Male", false, false, "No", "Private", "Urban", 95, 23, "never smoked"⟩

/-- A loaded binary model whose `predict` always returns `b`. -/
def bmConst (b : ℤ) : Profile → Option ℤ := fun _ => some b

/-- A loaded binary model whose `predict` invocation always fails. -/
def bmFail : Profile → Option ℤ := fun _ => none

/-- A loaded probability model whose `predict` always returns `q`. -/
def pmConst (q : ℚ) : Profile → Option ℚ := fun _ => some q

/-- A loaded probability model whose `predict` invocation always fails. -/
def pmFail : Profile → Option ℚ := fun _ => none

/-- The explanation sentence that the scorer emits together with a
given factor label (each non-combination branch appends its factor and
its explanation in the same `if` arm). -/
def explFor (label : String) (p : Profile) : Expl :=
  if label = "Age 70+" then Expl.ageSignificant p.age
  else if label = "Age 60-69" then Expl.ageElevated p.age
  else if label = "Age 50-59" then Expl.ageScreening p.age
  else if label = "Hypertension" then Expl.hypertension
  else if label = "Heart Disease" then Expl.heartDisease
  else if label = "Very High Glucose" then
    Expl.veryHighGlucose p.avg_glucose_level
  else if label = "Elevated Glucose" then
    Expl.elevatedGlucose p.avg_glucose_level
  else if label = "Severe Obesity" then Expl.severeObesity p.bmi
  else if label = "Obesity" then Expl.obesity p.bmi
  else if label = "Current Smoker" then Expl.currentSmoker
  else if label = "Former Smoker" then Expl.formerSmoker
  else Expl.comboAgeHyp

/-- A factor list and an explanation list correspond position by
position: equal lengths and the i-th explanation is the sentence of the
i-th factor. -/
def Paired (p : Profile) (fs : List String) (es : List Expl) : Prop :=
  fs.length = es.length ∧
  ∀ i : ℕ, i < fs.length → es.getD i default = explFor (fs.getD i "") p

/-! Claim C1. -/

/-- C1 counterexample: on the profile `age=75, hypertension, glucose=120,
bmi=22, smoking "never"`, the rule-based scorer of app.py returns
percentage 70 and level HIGH (35 age + 20 hypertension + 5 for
glucose ≥ 100 + 10 for the age ≥ 60 ∧ hypertension combination), not the
claimed 55/MODERATE; the factors list is as claimed. -/
theorem c1_counterexample :
    (calculate_risk_score c1Profile).percentage = 70 ∧
    (calculate_risk_score c1Profile).level = "HIGH" ∧
    (calculate_risk_score c1Profile).factors = ["Age 70+", "Hypertension"] ∧
    ¬((calculate_risk_score c1Profile).percentage = 55 ∧
      (calculate_risk_score c1Profile).level = "MODERATE") := by
  decide

/-- C1 (amended): for the profile age=75, hypertension=true,
heart_disease=false, avg_glucose_level=120, bmi=22,
smoking_status="never", with no model loaded, the rule-based scorer
returns percentage 70 (35 + 20 + 5 glucose + 10 combination), level
HIGH, and factors ["Age 70+", "Hypertension"]. -/
theorem c1_profile_evaluation :
    calculate_risk_score c1Profile =
      { percentage := 70
        level := "HIGH"
        factors := ["Age 70+", "Hypertension"]
        explanation := [Expl.ageSignificant 75, Expl.hypertension,
                        Expl.comboAgeHyp] } := by
  decide

/-! Claim C3. -/

/-- The rule-based percentage is `min 95 (max 5 score)`, hence in
`[5, 95]`. -/
theorem calcRisk_bounds (p : Profile) :
    5 ≤ (calculate_risk_score p).percentage ∧
      (calculate_risk_score p).percentage ≤ 95 := by
  simp only [calculate_risk_score]
  exact ⟨le_min (by norm_num) (le_max_left _ _), min_le_left _ _⟩

/-- Flask arbiter: no binary model loaded means the rule-based result is
returned verbatim. -/
theorem pwm_no_binary (pm : Option (Profile → Option ℚ)) (p : Profile) :
    predict_with_model none pm p = calculate_risk_score p := by
  rcases pm with _ | pf <;> rfl

/-- Flask arbiter: no probability model loaded means the rule-based
result is returned verbatim. -/
theorem pwm_no_prob (bf : Profile → Option ℤ) (p : Profile) :
    predict_with_model (some bf) none p = calculate_risk_score p := rfl

set_option maxHeartbeats 1000000 in
/-- Flask arbiter: a failing binary invocation aborts the `try` block
and falls back to the full rule-based result. -/
theorem pwm_binary_failure (bf : Profile → Option ℤ)
    (pf : Profile → Option ℚ) (p : Profile) (hb : bf p = none) :
    predict_with_model (some bf) (some pf) p = calculate_risk_score p := by
  simp only [predict_with_model, hb]

/-- Flask arbiter: a failing probability invocation aborts the `try`
block and falls back to the full rule-based result. -/
theorem pwm_prob_failure (bf : Profile → Option ℤ)
    (pf : Profile → Option ℚ) (p : Profile) (b : ℤ)
    (hb : bf p = some b) (hq : pf p = none) :
    predict_with_model (some bf) (some pf) p = calculate_risk_score p := by
  simp only [predict_with_model, hb, hq]

/-- Flask arbiter: shape of the result when both invocations succeed. -/
theorem pwm_success (bf : Profile → Option ℤ) (pf : Profile → Option ℚ)
    (p : Profile) (b : ℤ) (q : ℚ)
    (hb : bf p = some b) (hq : pf p = some q) :
    predict_with_model (some bf) (some pf) p =
      { percentage :=
          if b = 1 then max (max 0 (min 100 (ratTrunc (q * 100)))) 30
          else max 0 (min 100 (ratTrunc (q * 100)))
        level := riskLevel (if b = 1 then
            max (max 0 (min 100 (ratTrunc (q * 100)))) 30
          else max 0 (min 100 (ratTrunc (q * 100))))
        factors := (calculate_risk_score p).factors
        explanation := (calculate_risk_score p).explanation } := by
  simp only [predict_with_model, hb, hq]

/-- C3: for every profile the rule-based percentage lies in `[5, 95]`,
and for every profile and any (present, absent, succeeding or failing)
pair of models the percentage of the model-assisted path lies in
`[0, 100]`. -/
theorem c3_percentage_range :
    ∀ p : Profile,
      (5 ≤ (calculate_risk_score p).percentage ∧
        (calculate_risk_score p).percentage ≤ 95) ∧
      ∀ (bm : Option (Profile → Option ℤ)) (pm : Option (Profile → Option ℚ)),
        0 ≤ (predict_with_model bm pm p).percentage ∧
          (predict_with_model bm pm p).percentage ≤ 100 := by
  intro p
  refine ⟨calcRisk_bounds p, ?_⟩
  intro bm pm
  have hrule := calcRisk_bounds p
  rcases bm with _ | bf
  · rw [pwm_no_binary]; omega
  rcases pm with _ | pf
  · rw [pwm_no_prob]; omega
  rcases hb : bf p with _ | b
  · rw [pwm_binary_failure bf pf p hb]; omega
  rcases hq : pf p with _ | q
  · rw [pwm_prob_failure bf pf p b hb hq]; omega
  rw [pwm_success bf pf p b q hb hq]
  dsimp only
  constructor
  · split <;> omega
  · split <;> omega

/-! Claim C9. -/

/-- The score contribution of the combination branches does not depend
on the accumulated factors list (the membership test only selects
explanations). -/
theorem comboBlock_fst (age : ℚ) (hyp heart : Bool) (rf : List String) :
    (comboBlock age hyp heart rf).1 =
      (if age ≥ 60 ∧ hyp = true then (10 : ℤ) else 0) +
      (if hyp = true ∧ heart = true then (10 : ℤ) else 0) := by
  simp only [comboBlock]
  split_ifs <;> simp

/-- C9: raising `avg_glucose_level` from 90 to 150 to 210 while holding
every other field fixed never decreases the rule-based percentage. -/
theorem c9_glucose_monotone :
    ∀ p : Profile,
      (calculate_risk_score { p with avg_glucose_level := 90 }).percentage ≤
        (calculate_risk_score { p with avg_glucose_level := 150 }).percentage ∧
      (calculate_risk_score { p with avg_glucose_level := 150 }).percentage ≤
        (calculate_risk_score { p with avg_glucose_level := 210 }).percentage := by
  intro p
  have h90 : glucoseBlock (90 : ℚ) = (0, [], []) := by norm_num [glucoseBlock]
  have h150 : glucoseBlock (150 : ℚ) =
      (10, ["Elevated Glucose"], [Expl.elevatedGlucose 150]) := by
    norm_num [glucoseBlock]
  have h210 : glucoseBlock (210 : ℚ) =
      (15, ["Very High Glucose"], [Expl.veryHighGlucose 210]) := by
    norm_num [glucoseBlock]
  simp only [calculate_risk_score, comboBlock_fst, h90, h150, h210]
  constructor <;> omega

/-! Streamlit arbiter helper lemmas. -/

/-- On a nonnegative argument, Python truncation is the floor. -/
theorem ratTrunc_nonneg (q : ℚ) (h : 0 ≤ q) : ratTrunc q = ⌊q⌋ := if_pos h

set_option maxHeartbeats 1000000 in
/-- Streamlit arbiter: shape of the result when the probability
invocation succeeds (the binary term may have succeeded or failed). -/
theorem psr_success (bf : Profile → Option ℤ) (pf : Profile → Option ℚ)
    (p : Profile) (q : ℚ) (hq : pf p = some q) :
    predict_stroke_risk (some bf) (some pf) p =
      { percentage :=
          if bf p = some 1 then max (max 0 (min 100 (ratTrunc (q * 100)))) 30
          else max 0 (min 100 (ratTrunc (q * 100)))
        level := riskLevel (if bf p = some 1 then
            max (max 0 (min 100 (ratTrunc (q * 100)))) 30
          else max 0 (min 100 (ratTrunc (q * 100))))
        factors := (st_calculate_risk_score p).factors
        binary_flag := bf p } := by
  simp only [predict_stroke_risk, hq]

set_option maxHeartbeats 1000000 in
/-- Streamlit arbiter: a failing probability invocation falls back to
the rule-based percentage and level while the binary flag keeps
whatever the independent binary call produced. -/
theorem psr_prob_failure (bf : Profile → Option ℤ)
    (pf : Profile → Option ℚ) (p : Profile) (hq : pf p = none) :
    predict_stroke_risk (some bf) (some pf) p =
      { percentage := (st_calculate_risk_score p).percentage
        level := (st_calculate_risk_score p).level
        factors := (st_calculate_risk_score p).factors
        binary_flag := bf p } := by
  simp only [predict_stroke_risk, hq]

/-! Claim C2. -/

/-- C2 counterexample: with a loaded binary model returning 1 and a
loaded probability model whose invocation fails, both arbiters return
the rule-based percentage of a low-risk profile, i.e. 5 < 30 — the
binary floor does not survive a probability-model failure. -/
theorem c2_counterexample :
    (predict_with_model (some (bmConst 1)) (some pmFail) lowProfile).percentage
      = 5 ∧
    (predict_stroke_risk (some (bmConst 1)) (some pmFail) lowProfile).percentage
      = 5 ∧
    ¬(30 ≤ (5 : ℤ)) := by
  decide

/-- C2 (amended): for every profile and every pair of loaded models,
whenever the binary model's predict returns 1 and the probability
model's invocation succeeds, the final percentage of either arbiter is
at least 30 regardless of the probability value. -/
theorem c2_binary_floor (p : Profile) (bf : Profile → Option ℤ)
    (pf : Profile → Option ℚ) (q : ℚ)
    (hb : bf p = some 1) (hq : pf p = some q) :
    30 ≤ (predict_with_model (some bf) (some pf) p).percentage ∧
    30 ≤ (predict_stroke_risk (some bf) (some pf) p).percentage := by
  rw [pwm_success bf pf p 1 q hb hq, psr_success bf pf p q hq]
  dsimp only
  rw [hb]
  simp only [if_pos rfl]
  exact ⟨le_max_right _ _, le_max_right _ _⟩

/-- Witness for `c2_binary_floor` at a concrete input. -/
theorem c2_binary_floor_witness :
    30 ≤ (predict_with_model (some (bmConst 1)) (some (pmConst (1 / 2)))
      lowProfile).percentage :=
  (c2_binary_floor lowProfile (bmConst 1) (pmConst (1 / 2)) (1 / 2) rfl rfl).1

/-! Claim C4. -/

/-- C4 counterexample: in the Flask arbiter the two model calls share
one `try` block, so a failing binary invocation discards the succeeding
probability model's contribution: with the probability model returning
0.9 the result is the rule-based 5 instead of the 90 obtained when the
binary call succeeds. -/
theorem c4_counterexample :
    (predict_with_model (some bmFail) (some (pmConst (9 / 10)))
      lowProfile).percentage = 5 ∧
    (predict_with_model (some (bmConst 0)) (some (pmConst (9 / 10)))
      lowProfile).percentage = 90 ∧
    (5 : ℤ) ≠ 90 := by
  have ht : ratTrunc ((9 : ℚ) / 10 * 100) = 90 := by
    rw [show ((9 : ℚ) / 10 * 100) = 90 by norm_num,
      ratTrunc_nonneg _ (by norm_num)]
    norm_num
  refine ⟨?_, ?_, by decide⟩
  · rw [pwm_binary_failure bmFail (pmConst (9 / 10)) lowProfile rfl]
    decide
  · rw [pwm_success (bmConst 0) (pmConst (9 / 10)) lowProfile 0 (9 / 10) rfl rfl]
    dsimp only
    rw [ht]
    decide

/-- C4 (amended): only the Streamlit arbiter evaluates the two model
calls independently, each with its own fallback — a binary failure
leaves the probability-derived percentage intact with a null flag, and
a probability failure falls back to the rule-based percentage/level
while keeping the binary flag; the Flask arbiter instead falls back to
the full rule-based result as soon as either invocation fails. -/
theorem c4_partial_failure (p : Profile) (bf : Profile → Option ℤ)
    (pf : Profile → Option ℚ) :
    (∀ q : ℚ, bf p = none → pf p = some q →
      predict_stroke_risk (some bf) (some pf) p =
        { percentage := max 0 (min 100 (ratTrunc (q * 100)))
          level := riskLevel (max 0 (min 100 (ratTrunc (q * 100))))
          factors := (st_calculate_risk_score p).factors
          binary_flag := none }) ∧
    (∀ b : ℤ, bf p = some b → pf p = none →
      predict_stroke_risk (some bf) (some pf) p =
        { percentage := (st_calculate_risk_score p).percentage
          level := (st_calculate_risk_score p).level
          factors := (st_calculate_risk_score p).factors
          binary_flag := some b }) ∧
    (bf p = none →
      predict_with_model (some bf) (some pf) p = calculate_risk_score p) ∧
    (pf p = none →
      predict_with_model (some bf) (some pf) p = calculate_risk_score p) := by
  refine ⟨?_, ?_, ?_, ?_⟩
  · intro q hb hq
    rw [psr_success bf pf p q hq, hb]
    simp
  · intro b hb hq
    rw [psr_prob_failure bf pf p hq, hb]
  · intro hb
    exact pwm_binary_failure bf pf p hb
  · intro hq
    rcases hb : bf p with _ | b
    · exact pwm_binary_failure bf pf p hb
    · exact pwm_prob_failure bf pf p b hb hq

/-- Witness for `c4_partial_failure` at a concrete input. -/
theorem c4_partial_failure_witness :
    predict_with_model (some bmFail) (some (pmConst (9 / 10))) lowProfile
      = calculate_risk_score lowProfile :=
  (c4_partial_failure lowProfile bmFail (pmConst (9 / 10))).2.2.1 rfl

/-! Claim C5. -/

/-- C5 counterexample: with the probability model returning 0.426 and
the binary model returning 0, both arbiters compute percentage 42 —
`int(p*100)` truncates — while the claimed `clamp(round(p·100), 0, 100)`
would give 43. -/
theorem c5_counterexample :
    (predict_with_model (some (bmConst 0)) (some (pmConst (426 / 1000)))
      lowProfile).percentage = 42 ∧
    (predict_stroke_risk (some (bmConst 0)) (some (pmConst (426 / 1000)))
      lowProfile).percentage = 42 ∧
    max 0 (min 100 (roundNearest ((426 / 1000 : ℚ) * 100))) = 43 ∧
    (42 : ℤ) ≠ 43 := by
  have ht : ratTrunc ((426 : ℚ) / 1000 * 100) = 42 := by
    rw [show ((426 : ℚ) / 1000 * 100) = 213 / 5 by norm_num,
      ratTrunc_nonneg _ (by norm_num), Int.floor_eq_iff] <;> norm_num
  have hr : roundNearest ((426 / 1000 : ℚ) * 100) = 43 := by
    show (⌊((426 / 1000 : ℚ) * 100) + 1 / 2⌋ : ℤ) = 43
    rw [Int.floor_eq_iff] <;> norm_num
  refine ⟨?_, ?_, ?_, by decide⟩
  · rw [pwm_success (bmConst 0) (pmConst (426 / 1000)) lowProfile 0
      (426 / 1000) rfl rfl]
    dsimp only
    rw [ht]
    decide
  · rw [psr_success (bmConst 0) (pmConst (426 / 1000)) lowProfile
      (426 / 1000) rfl]
    dsimp only
    rw [ht]
    decide
  · rw [hr]
    decide

/-- C5 (amended): on the model-assisted path, for every probability
`q ∈ [0, 1]` returned by the probability model, both arbiters compute
the percentage as `clamp(trunc(q·100), 0, 100)` (truncation toward
zero, so 0.426 yields 42), then apply the binary floor when the binary
prediction is 1. -/
theorem c5_truncation (p : Profile) (bf : Profile → Option ℤ)
    (pf : Profile → Option ℚ) (q : ℚ) (b : ℤ)
    (h0 : 0 ≤ q) (h1 : q ≤ 1) (hq : pf p = some q) (hb : bf p = some b) :
    (predict_with_model (some bf) (some pf) p).percentage =
      (if b = 1 then max (max 0 (min 100 (ratTrunc (q * 100)))) 30
       else max 0 (min 100 (ratTrunc (q * 100)))) ∧
    (predict_stroke_risk (some bf) (some pf) p).percentage =
      (if b = 1 then max (max 0 (min 100 (ratTrunc (q * 100)))) 30
       else max 0 (min 100 (ratTrunc (q * 100)))) := by
  rw [pwm_success bf pf p b q hb hq, psr_success bf pf p q hq]
  dsimp only
  rw [hb]
  refine ⟨rfl, ?_⟩
  by_cases hb1 : b = 1 <;> simp [hb1]

/-- Witness for `c5_truncation` at a concrete input. -/
theorem c5_truncation_witness :
    (predict_with_model (some (bmConst 0)) (some (pmConst (426 / 1000)))
      lowProfile).percentage =
      (if (0 : ℤ) = 1 then
        max (max 0 (min 100 (ratTrunc (((426 : ℚ) / 1000) * 100)))) 30
       else max 0 (min 100 (ratTrunc (((426 : ℚ) / 1000) * 100)))) :=
  (c5_truncation lowProfile (bmConst 0) (pmConst (426 / 1000)) (426 / 1000) 0
    (by norm_num) (by norm_num) rfl rfl).1

/-! Claim C6. -/

/-- C6 counterexample: a single-row batch with a missing `bmi` cell is
left missing by step 1 — the median of the all-missing column is itself
missing and `fillna` with a missing fill value is a no-op — instead of
being imputed with the claimed fallback 25.0.  The same happens for
`avg_glucose_level` with its fallback 100.0. -/
theorem c6_counterexample :
    fillnaStep [none] 25 = [none] ∧
    fillnaStep [none] 25 ≠ [some 25] ∧
    fillnaStep [none] 100 = [none] ∧
    fillnaStep [none] 100 ≠ [some 100] := by
  decide

/-- C6 (amended): step 1 imputes a missing `bmi`
(resp. `avg_glucose_level`) cell with the median of the present values
of the current batch whenever that median exists; when no value of the
batch is present the cells stay missing (in particular a single-row
batch with missing `bmi` keeps `bmi` missing); the fixed fallback
(25.0, resp. 100.0) is only ever used on an empty batch, where there is
no row to fill. -/
theorem c6_imputation (col : List (Option ℚ)) (fallback : ℚ) :
    (∀ m : ℚ, pandasMedian col = some m →
      fillnaStep col fallback = col.map (fun x => some (x.getD m))) ∧
    (pandasMedian col = none → col ≠ [] → fillnaStep col fallback = col) ∧
    fillnaStep [] fallback = [] ∧
    (∀ fb : ℚ, fillnaStep [none] fb = [none]) := by
  refine ⟨?_, ?_, rfl, fun fb => rfl⟩
  · intro m hm
    cases col with
    | nil => simp [pandasMedian, sortListBy] at hm
    | cons a l => simp [fillnaStep, hm]
  · intro hm hne
    cases col with
    | nil => exact absurd rfl hne
    | cons a l => simp [fillnaStep, hm]

/-- Witness for `c6_imputation` at a concrete input. -/
theorem c6_imputation_witness :
    fillnaStep [some 20, none] 25 =
      ([some 20, none] : List (Option ℚ)).map (fun x => some (x.getD 20)) :=
  (c6_imputation [some 20, none] 25).1 20 (by decide)

/-! Claim C7. -/

/-- Lexicographic comparison is irreflexive. -/
theorem lexLt_irrefl (l : List Char) : lexLt l l = false := by
  induction l with
  | nil => rfl
  | cons c cs ih => simp [lexLt, ih]

/-- Lexicographic comparison is asymmetric. -/
theorem lexLt_asymm (l1 l2 : List Char) (h : lexLt l1 l2 = true) :
    lexLt l2 l1 = false := by
  induction l1 generalizing l2 with
  | nil =>
    cases l2 with
    | nil => simpa [lexLt] using h
    | cons d ds => rfl
  | cons c cs ih =>
    cases l2 with
    | nil => simp [lexLt] at h
    | cons d ds =>
      simp only [lexLt] at h ⊢
      by_cases h1 : c.toNat < d.toNat
      · have h2 : ¬d.toNat < c.toNat := by omega
        simp [h1, h2]
      · by_cases h2 : d.toNat < c.toNat
        · simp [h1, h2] at h
        · simp only [h1, h2, if_false] at h ⊢
          exact ih ds h

/-- Strictly smaller strings are distinct. -/
theorem strLt_ne (a b : String) (h : strLt a b = true) : a ≠ b := by
  intro he
  subst he
  rw [strLt, lexLt_irrefl] at h
  exact Bool.noConfusion h

/-- `pd.Categorical` codes of a two-element batch of distinct values:
the lexicographically larger value receives code 1, the smaller one
code 0, regardless of row order. -/
theorem categoricalCodes_pair (a b : String) (h : strLt a b = true) :
    categoricalCodes [b, a] = [1, 0] := by
  have hne : a ≠ b := strLt_ne a b h
  have hba : strLt b a = false := lexLt_asymm a.data b.data h
  have hd : List.dedup [b, a] = [b, a] := by
    rw [List.dedup_cons_of_not_mem (by simpa using fun he => hne he.symm)]
    simp
  have hs : sortedCategories [b, a] = [a, b] := by
    rw [sortedCategories, hd]
    simp [sortListBy, insertSorted, hba]
  rw [categoricalCodes, hs]
  rw [List.map_cons, List.map_cons, List.map_nil,
    List.indexOf_cons_ne _ hne, List.indexOf_cons_self,
    List.indexOf_cons_self]
  rfl

/-- C7 counterexample: in a two-row batch whose first row holds the
lexicographically larger `work_type` value ("Private" > "Govt_job"),
the encoded column gives that value code 1, not the claimed 0. -/
theorem c7_counterexample :
    (dropStep (encodeStep (inputDF [some 50, some 60] ["Male", "Female"]
        [some 0, some 0] [some 0, some 0] ["Yes", "No"]
        ["Private", "Govt_job"] ["Urban", "Rural"] [some 100, some 100]
        [some 25, some 25] ["never smoked", "formerly smoked"]))).lookup
      "work_type_encoded" = some (Col.ints [1, 0]) ∧
    strLt "Govt_job" "Private" = true ∧
    (1 : ℤ) ≠ 0 := by
  decide

set_option maxHeartbeats 4000000 in
/-- C7 (amended): on the raw input dataframe, steps 3–4 of the
normalizer encode each categorical field (gender, ever_married,
work_type, Residence_type, smoking_status) into an integer code
assigned by the lexicographically sorted order of the distinct values
of the current batch, write it to a `<field>_encoded` feature and drop
the original column; in a two-row batch of distinct values the
lexicographically larger value receives code 1 (the smaller 0),
whatever its row position. -/
theorem c7_encoding (ages : List (Option ℚ)) (genders : List String)
    (hyps hds : List (Option ℚ)) (marrieds works ress : List String)
    (glus bmis : List (Option ℚ)) (smokes : List String) :
    ((dropStep (encodeStep (inputDF ages genders hyps hds marrieds works
        ress glus bmis smokes))).lookup "gender_encoded"
        = some (Col.ints (categoricalCodes genders)) ∧
      (dropStep (encodeStep (inputDF ages genders hyps hds marrieds works
        ress glus bmis smokes))).lookup "ever_married_encoded"
        = some (Col.ints (categoricalCodes marrieds)) ∧
      (dropStep (encodeStep (inputDF ages genders hyps hds marrieds works
        ress glus bmis smokes))).lookup "work_type_encoded"
        = some (Col.ints (categoricalCodes works)) ∧
      (dropStep (encodeStep (inputDF ages genders hyps hds marrieds works
        ress glus bmis smokes))).lookup "Residence_type_encoded"
        = some (Col.ints (categoricalCodes ress)) ∧
      (dropStep (encodeStep (inputDF ages genders hyps hds marrieds works
        ress glus bmis smokes))).lookup "smoking_status_encoded"
        = some (Col.ints (categoricalCodes smokes))) ∧
    ((dropStep (encodeStep (inputDF ages genders hyps hds marrieds works
        ress glus bmis smokes))).lookup "gender" = none ∧
      (dropStep (encodeStep (inputDF ages genders hyps hds marrieds works
        ress glus bmis smokes))).lookup "ever_married" = none ∧
      (dropStep (encodeStep (inputDF ages genders hyps hds marrieds works
        ress glus bmis smokes))).lookup "work_type" = none ∧
      (dropStep (encodeStep (inputDF ages genders hyps hds marrieds works
        ress glus bmis smokes))).lookup "Residence_type" = none ∧
      (dropStep (encodeStep (inputDF ages genders hyps hds marrieds works
        ress glus bmis smokes))).lookup "smoking_status" = none) ∧
    (∀ a b : String, strLt a b = true → categoricalCodes [b, a] = [1, 0]) := by
  exact ⟨⟨rfl, rfl, rfl, rfl, rfl⟩, ⟨rfl, rfl, rfl, rfl, rfl⟩,
    categoricalCodes_pair⟩

/-- Witness for `c7_encoding` at a concrete input. -/
theorem c7_encoding_witness :
    categoricalCodes ["Private", "Govt_job"] = [1, 0] :=
  (c7_encoding [] [] [] [] [] [] [] [] [] []).2.2 "Govt_job" "Private"
    (by decide)

/-! Claim C8. -/

/-- Unfolding `List.lookup` over a cons cell. -/
theorem lookup_cons (k : String) (v : Col) (l : DF) (c : String) :
    ((k, v) :: l).lookup c = if c = k then some v else l.lookup c := by
  simp only [List.lookup]
  split <;> rename_i heq
  · rw [if_pos (by simpa using heq)]
  · rw [if_neg (by simpa using heq)]

/-- Appending columns never changes an existing lookup. -/
theorem lookup_append_some (d e : DF) (c : String) (v : Col)
    (h : d.lookup c = some v) : (d ++ e).lookup c = some v := by
  induction d with
  | nil => simp [List.lookup] at h
  | cons kv tl ih =>
    obtain ⟨k, w⟩ := kv
    rw [lookup_cons] at h
    rw [List.cons_append, lookup_cons]
    by_cases hck : c = k
    · rwa [if_pos hck] at h ⊢
    · rw [if_neg hck] at h ⊢
      exact ih h

/-- A lookup that misses the first block continues in the appended one. -/
theorem lookup_append_none (d e : DF) (c : String)
    (h : d.lookup c = none) : (d ++ e).lookup c = e.lookup c := by
  induction d with
  | nil => rfl
  | cons kv tl ih =>
    obtain ⟨k, w⟩ := kv
    rw [lookup_cons] at h
    rw [List.cons_append, lookup_cons]
    by_cases hck : c = k
    · rw [if_pos hck] at h
      exact absurd h (by simp)
    · rw [if_neg hck] at h ⊢
      exact ih h

/-- `addCol` never changes an existing lookup. -/
theorem addCol_preserve (n : ℕ) (d : DF) (c e : String) (v : Col)
    (h : d.lookup c = some v) : (addCol n d e).lookup c = some v := by
  unfold addCol
  split
  · exact h
  · exact lookup_append_some d [(e, zeroCol n)] c v h

/-- The add-missing loop never changes an existing lookup. -/
theorem addMissing_preserve (n : ℕ) (es : List String) (d : DF)
    (c : String) (v : Col) (h : d.lookup c = some v) :
    (addMissingStep n d es).lookup c = some v := by
  induction es generalizing d with
  | nil => exact h
  | cons e tl ih =>
    simp only [addMissingStep, List.foldl] at ih ⊢
    exact ih (addCol n d e) (addCol_preserve n d c e v h)

/-- After the add-missing loop, every expected column is present: with
its original value if the frame had it, as constant 0 otherwise. -/
theorem addMissing_lookup (n : ℕ) (es : List String) (d : DF)
    (c : String) (hc : c ∈ es) :
    (addMissingStep n d es).lookup c =
      some ((d.lookup c).getD (zeroCol n)) := by
  induction es generalizing d with
  | nil => cases hc
  | cons e tl ih =>
    simp only [addMissingStep, List.foldl] at ih ⊢
    by_cases hce : c = e
    · subst hce
      have h1 : (addCol n d c).lookup c =
          some ((d.lookup c).getD (zeroCol n)) := by
        unfold addCol
        cases hd : d.lookup c with
        | some v => simp [hd]
        | none =>
          rw [if_neg (by simp [hd]), lookup_append_none d _ c hd,
            lookup_cons, if_pos rfl]
          simp
      have h2 := addMissing_preserve n tl (addCol n d c) c _ h1
      simpa [addMissingStep] using h2
    · have hctl : c ∈ tl := by
        rcases List.mem_cons.mp hc with h | h
        · exact absurd h hce
        · exact h
      have h2 : (addCol n d e).lookup c = d.lookup c := by
        unfold addCol
        split
        · rfl
        · cases hd : d.lookup c with
          | some v => exact lookup_append_some d _ c v hd
          | none =>
            rw [lookup_append_none d _ c hd, lookup_cons, if_neg hce]
            rfl
      rw [ih (addCol n d e) hctl, h2]

/-- C8: for every profile batch and every non-empty `expected_features`
list, step 5 of the normalizer outputs exactly the names of
`expected_features`, in that exact order; each expected feature carries
the frame's value when derived, and the constant-0 column otherwise
(everything not expected is discarded by the selection). -/
theorem c8_feature_selection (n : ℕ) (df : DF)
    (expected_features : List String) (hne : expected_features ≠ []) :
    (featureFilter n df expected_features).map Prod.fst
        = expected_features ∧
    featureFilter n df expected_features =
      expected_features.map
        (fun c => (c, (df.lookup c).getD (zeroCol n))) := by
  clear hne
  constructor
  · simp only [featureFilter, selectStep, List.map_map]
    exact List.map_id _
  · simp only [featureFilter, selectStep]
    apply List.map_congr_left
    intro c hc
    rw [addMissing_lookup n expected_features df c hc]
    simp

/-- Witness for `c8_feature_selection` at a concrete input. -/
theorem c8_feature_selection_witness :
    featureFilter 1 [("age", Col.nums [some 50])] ["age", "zz"] =
      (["age", "zz"].map
        (fun c => (c, (([("age", Col.nums [some 50])] : DF).lookup c).getD
          (zeroCol 1)))) :=
  (c8_feature_selection 1 [("age", Col.nums [some 50])] ["age", "zz"]
    (by decide)).2

/-! Claim C10. -/

/-- Empty factor and explanation lists correspond. -/
theorem paired_nil (p : Profile) : Paired p [] [] :=
  ⟨rfl, fun i hi => absurd hi (Nat.not_lt_zero i)⟩

/-- A factor emitted together with its sentence corresponds. -/
theorem paired_single (p : Profile) (l : String) (e : Expl)
    (h : explFor l p = e) : Paired p [l] [e] := by
  refine ⟨rfl, ?_⟩
  intro i hi
  have h0 : i = 0 := Nat.lt_one_iff.mp hi
  subst h0
  simpa using h.symm

/-- Correspondence is preserved by concatenating blocks. -/
theorem paired_append (p : Profile) (f1 : List String) (e1 : List Expl)
    (f2 : List String) (e2 : List Expl)
    (h1 : Paired p f1 e1) (h2 : Paired p f2 e2) :
    Paired p (f1 ++ f2) (e1 ++ e2) := by
  obtain ⟨hl1, hp1⟩ := h1
  obtain ⟨hl2, hp2⟩ := h2
  refine ⟨by simp [hl1, hl2], ?_⟩
  intro i hi
  rw [List.length_append] at hi
  by_cases hlt : i < f1.length
  · rw [List.getD_append _ _ _ _ hlt, List.getD_append _ _ _ _ (by omega)]
    exact hp1 i hlt
  · push_neg at hlt
    rw [List.getD_append_right _ _ _ _ hlt,
      List.getD_append_right _ _ _ _ (by omega), ← hl1]
    exact hp2 (i - f1.length) (by omega)

/-- The age block pairs its factor with its sentence. -/
theorem paired_ageBlock (p : Profile) :
    Paired p (ageBlock p.age).2.1 (ageBlock p.age).2.2 := by
  unfold ageBlock
  split_ifs <;> first
    | exact paired_single p _ _ rfl
    | exact paired_nil p

/-- The hypertension block pairs its factor with its sentence. -/
theorem paired_hypertensionBlock (p : Profile) :
    Paired p (hypertensionBlock p.hypertension).2.1
      (hypertensionBlock p.hypertension).2.2 := by
  unfold hypertensionBlock
  split_ifs <;> first
    | exact paired_single p _ _ rfl
    | exact paired_nil p

/-- The heart-disease block pairs its factor with its sentence. -/
theorem paired_heartDiseaseBlock (p : Profile) :
    Paired p (heartDiseaseBlock p.heart_disease).2.1
      (heartDiseaseBlock p.heart_disease).2.2 := by
  unfold heartDiseaseBlock
  split_ifs <;> first
    | exact paired_single p _ _ rfl
    | exact paired_nil p

/-- The glucose block pairs its factor with its sentence. -/
theorem paired_glucoseBlock (p : Profile) :
    Paired p (glucoseBlock p.avg_glucose_level).2.1
      (glucoseBlock p.avg_glucose_level).2.2 := by
  unfold glucoseBlock
  split_ifs <;> first
    | exact paired_single p _ _ rfl
    | exact paired_nil p

/-- The BMI block pairs its factor with its sentence. -/
theorem paired_bmiBlock (p : Profile) :
    Paired p (bmiBlock p.bmi).2.1 (bmiBlock p.bmi).2.2 := by
  unfold bmiBlock
  split_ifs <;> first
    | exact paired_single p _ _ rfl
    | exact paired_nil p

/-- The smoking block pairs its factor with its sentence. -/
theorem paired_smokingBlock (p : Profile) :
    Paired p (smokingBlock p.smoking_status).2.1
      (smokingBlock p.smoking_status).2.2 := by
  unfold smokingBlock
  split_ifs <;> first
    | exact paired_single p _ _ rfl
    | exact paired_nil p

/-- No block ever emits the combination label. -/
theorem comboStr_not_in_age (x : ℚ) :
    "Age + Hypertension Combination" ∉ (ageBlock x).2.1 := by
  unfold ageBlock
  split_ifs <;> simp

/-- No block ever emits the combination label. -/
theorem comboStr_not_in_hyp (b : Bool) :
    "Age + Hypertension Combination" ∉ (hypertensionBlock b).2.1 := by
  unfold hypertensionBlock
  split_ifs <;> simp

/-- No block ever emits the combination label. -/
theorem comboStr_not_in_heart (b : Bool) :
    "Age + Hypertension Combination" ∉ (heartDiseaseBlock b).2.1 := by
  unfold heartDiseaseBlock
  split_ifs <;> simp

/-- No block ever emits the combination label. -/
theorem comboStr_not_in_glucose (x : ℚ) :
    "Age + Hypertension Combination" ∉ (glucoseBlock x).2.1 := by
  unfold glucoseBlock
  split_ifs <;> simp

/-- No block ever emits the combination label. -/
theorem comboStr_not_in_bmi (x : ℚ) :
    "Age + Hypertension Combination" ∉ (bmiBlock x).2.1 := by
  unfold bmiBlock
  split_ifs <;> simp

/-- No block ever emits the combination label. -/
theorem comboStr_not_in_smoking (s : String) :
    "Age + Hypertension Combination" ∉ (smokingBlock s).2.1 := by
  unfold smokingBlock
  split_ifs <;> simp

/-- C10: the combination branches only append sentences — the string
"Age + Hypertension Combination" never occurs in the returned factors
(so the membership guard before the age+hypertension explanation, which
tests exactly this list, is always true); the explanation list can be
longer than the factors list (witnessed on the combination profile);
and for every `i` below the number of factors, `explanation[i]` is the
sentence emitted together with `factors[i]`. -/
theorem c10_combination_explanations :
    (∀ p : Profile,
      "Age + Hypertension Combination" ∉ (calculate_risk_score p).factors) ∧
    ((calculate_risk_score comboProfile).explanation.length >
      (calculate_risk_score comboProfile).factors.length) ∧
    (∀ p : Profile, ∀ i : ℕ, i < (calculate_risk_score p).factors.length →
      (calculate_risk_score p).explanation.getD i default =
        explFor ((calculate_risk_score p).factors.getD i "") p) := by
  refine ⟨?_, by decide, ?_⟩
  · intro p
    simp only [calculate_risk_score, List.mem_append, not_or]
    exact ⟨⟨⟨⟨⟨comboStr_not_in_age p.age, comboStr_not_in_hyp p.hypertension⟩,
      comboStr_not_in_heart p.heart_disease⟩,
      comboStr_not_in_glucose p.avg_glucose_level⟩,
      comboStr_not_in_bmi p.bmi⟩, comboStr_not_in_smoking p.smoking_status⟩
  · intro p i hi
    have hpair :=
      paired_append p _ _ _ _
        (paired_append p _ _ _ _
          (paired_append p _ _ _ _
            (paired_append p _ _ _ _
              (paired_append p _ _ _ _ (paired_ageBlock p)
                (paired_hypertensionBlock p))
              (paired_heartDiseaseBlock p))
            (paired_glucoseBlock p))
          (paired_bmiBlock p))
        (paired_smokingBlock p)
    obtain ⟨hlen, hpt⟩ := hpair
    simp only [calculate_risk_score] at hi ⊢
    rw [List.getD_append _ _ _ _ (by omega)]
    exact hpt i hi

/-- Witness for `c10_combination_explanations` at a concrete input. -/
theorem c10_combination_explanations_witness :
    (calculate_risk_score c1Profile).explanation.getD 0 default =
      explFor ((calculate_risk_score c1Profile).factors.getD 0 "") c1Profile :=
  c10_combination_explanations.2.2 c1Profile 0 (by decide)
